import Mathlib

/-!
Verification development for the `wfi-ob-creation` repository
(`ob_templates.py` and `generate_obs.py`).

Angles are modelled as exact rationals (degrees).  Python's decimal
rendering of non-negative integers (`"{:d}"`-style) is modelled by
`natDigits`; zero-fill padding (`"{:0>Nd}"`, `"{:0>N.Mf}"`) by `padZeros`.
Fixed-point rounding at 5 decimal places (`"{:.5f}"`) is modelled by
`round` on rationals (nearest integer; no claim below depends on the
tie-breaking rule of binary floats).

Python dictionaries (`self.__dict__` of a block) are modelled as
association lists where a later entry shadows an earlier one with the same
key, which is exactly the overlay behaviour of successive `dict.update`
calls.  The `defaults.yaml` document and the `*.template.obx` documents
are not part of the source tree, so blocks are parameterised over the
defaults' contents and over the template's parsed segment list; template
paths are modelled by their basenames (the source prefixes
`os.path.dirname(__file__)` to each).
-/

namespace WfiOb

/-! ## Decimal digit rendering -/

/-- Decimal digit characters of `n`, most significant first, driven by a
structural fuel argument (the fuel is always at least `n`, which is enough
because the value shrinks by a factor of 10 each step). -/
def natDigitsF : ℕ → ℕ → List Char
  | 0, n => [Nat.digitChar n]
  | fuel + 1, n =>
    if n < 10 then [Nat.digitChar n]
    else natDigitsF fuel (n / 10) ++ [Nat.digitChar (n % 10)]

/-- Decimal representation of a natural number, as Python renders
non-negative integers: most significant digit first, no padding. -/
def natDigits (n : ℕ) : List Char := natDigitsF n n

/-- Left zero-fill to width `w`, as Python's `"{:0>Nd}"` format spec:
shorter strings are padded with `'0'` on the left, longer strings are kept
unchanged. -/
def padZeros (w : ℕ) (l : List Char) : List Char :=
  List.replicate (w - l.length) '0' ++ l

/-- Numeric value of a string of decimal digit characters. -/
def digitsVal (l : List Char) : ℕ :=
  l.foldl (fun a c => a * 10 + (c.toNat - 48)) 0

/-! ## The sexagesimal coordinate formatter (`ob_templates.py`, lines 23-24)

  repr_sexagesimal = lambda c: "..." .format(
      "+" if c.degree > 0 else "-", abs(c.hms.h), abs(c.hms.m), abs(c.hms.s))

with format fields (in order) `0>02.0f`, `0>02.0f`, `0>8.5f` for the
hours, minutes and seconds of the angle's `hms` decomposition.  Taking the
absolute value of each signed component of `c.hms` is the same as
decomposing `|c|`, so the components below are defined directly on `|d|`
(`d` in degrees, hours = degrees / 15). -/

/-- Hours component of the `hms` decomposition of `|d|` degrees
(`abs(c.hms.h)` in the source). -/
def hmsH (d : ℚ) : ℕ := (⌊|d| / 15⌋).toNat

/-- Total whole minutes of `|d|` degrees: `⌊|d| / 15 * 60⌋ = ⌊|d| * 4⌋`. -/
def hmsMtotal (d : ℚ) : ℕ := (⌊|d| * 4⌋).toNat

/-- Minutes component of the `hms` decomposition of `|d|` degrees
(`abs(c.hms.m)` in the source). -/
def hmsM (d : ℚ) : ℕ := hmsMtotal d - 60 * hmsH d

/-- Seconds component of the `hms` decomposition of `|d|` degrees
(`abs(c.hms.s)` in the source): `(|d| * 4 - ⌊|d| * 4⌋) * 60`. -/
def hmsS (d : ℚ) : ℚ := |d| * 240 - 60 * (hmsMtotal d : ℚ)

/-- The `"{:0>02.0f}"` field applied to an integral non-negative value:
decimal digits, zero-filled to width 2. -/
def fmtNat2 (n : ℕ) : List Char := padZeros 2 (natDigits n)

/-- The `"{:0>8.5f}"` field applied to a non-negative value: round to
5 decimal places, render as `<int>.<5 digits>`, zero-fill to width 8. -/
def fmtFixed5Pad8 (q : ℚ) : List Char :=
  padZeros 8 (natDigits ((round (q * 100000)).toNat / 100000)
    ++ '.' :: padZeros 5 (natDigits ((round (q * 100000)).toNat % 100000)))

/-- `repr_sexagesimal` from `ob_templates.py` (lines 23-24): sign is `+`
exactly when the angle is strictly positive, then zero-padded hours,
minutes and 5-decimal seconds of the `hms` decomposition, colon-separated. -/
def repr_sexagesimal (d : ℚ) : String :=
  String.mk ((if 0 < d then '+' else '-') ::
    (fmtNat2 (hmsH d) ++ ':' :: fmtNat2 (hmsM d) ++ ':' :: fmtFixed5Pad8 (hmsS d)))

/-- Python's `s[1:]` string slice: drop the first character. -/
def strTail (s : String) : String := String.mk (s.data.drop 1)

/-- Total-match check for the regular expression
`[+-][0-9][0-9]:[0-9][0-9]:[0-9][0-9]\.[0-9][0-9][0-9][0-9][0-9]`:
length 15, a sign, two two-digit colon-separated fields, and a two-digit
seconds field with exactly five decimals. -/
def isSexPattern (s : String) : Bool :=
  match s.data with
  | [s0, a1, a2, c1, b1, b2, c2, e1, e2, p, f1, f2, f3, f4, f5] =>
    (s0 == '+' || s0 == '-') && a1.isDigit && a2.isDigit && c1 == ':' &&
    b1.isDigit && b2.isDigit && c2 == ':' && e1.isDigit && e2.isDigit &&
    p == '.' && f1.isDigit && f2.isDigit && f3.isDigit && f4.isDigit &&
    f5.isDigit
  | _ => false

/-! ## Parameter sets and the Observation Block hierarchy -/

/-- A scalar parameter value: a string or an integer (the two kinds of
value the source ever stores in a block's `__dict__`). -/
inductive Value : Type
  | str (s : String)
  | int (z : ℤ)
deriving DecidableEq

/-- A block's parameter set (`self.__dict__`): an association list where a
later entry shadows an earlier one with the same key. -/
abbrev ParamSet := List (String × Value)

/-- Python `dict.update`: overlay `kvs` onto `ps`; later values win on key
collision. -/
def ParamSet.update (ps kvs : ParamSet) : ParamSet := ps ++ kvs

/-- The effective value of key `k`: the value of the last entry with key
`k`, or `none` if no entry has key `k` (Python dict lookup under the
overlay reading of the association list). -/
def lookupLast : ParamSet → String → Option Value
  | [], _ => none
  | (k', v) :: t, k => (lookupLast t k).or (if k' = k then some v else none)

/-- `ObservationBlock.__init__` (`ob_templates.py`, lines 31-57): start from
an empty instance dict, overlay the loaded defaults document, then overlay
the caller-supplied name, description name, comments and filter.
`user_comments or ""` maps `None` (and `""`) to `""`.  The `**kwargs`
parameter is bound but never used by the source, so it is ignored here as
well. -/
def ObservationBlock.init (defaults : ParamSet) (ob_name ins_filter_name : String)
    (user_comments : Option String) (kwargs : ParamSet) : ParamSet :=
  ParamSet.update (ParamSet.update [] defaults)
    [("ob_name", Value.str ob_name),
     ("observation_description_name", Value.str ob_name),
     ("user_comments", Value.str (user_comments.getD "")),
     ("ins_filter_name", Value.str ins_filter_name)]

/-- `ObservationBlock.update` (`ob_templates.py`, lines 60-70):
`self.__dict__.update(kwargs)`. -/
def ObservationBlock.updateOp (ps kvs : ParamSet) : ParamSet :=
  ParamSet.update ps kvs

/-- `FlatObservationBlock.__init__` (lines 112-128): delegates to the base
initialiser unchanged. -/
def FlatObservationBlock.init (defaults : ParamSet) (ob_name ins_filter_name : String)
    (user_comments : Option String) (kwargs : ParamSet) : ParamSet :=
  ObservationBlock.init defaults ob_name ins_filter_name user_comments kwargs

/-- `SkyFlatObservationBlock.__init__` (lines 133-153): base initialiser,
then overlay the sky-flat template name constant. -/
def SkyFlatObservationBlock.init (defaults : ParamSet) (ob_name ins_filter_name : String)
    (user_comments : Option String) (kwargs : ParamSet) : ParamSet :=
  ParamSet.update
    (FlatObservationBlock.init defaults ob_name ins_filter_name user_comments kwargs)
    [("template_name", Value.str "WFI_img_cal_SkyFlat")]

/-- `DomeFlatObservationBlock.__init__` (lines 159-179): base initialiser,
then overlay the dome-flat template name constant. -/
def DomeFlatObservationBlock.init (defaults : ParamSet) (ob_name ins_filter_name : String)
    (user_comments : Option String) (kwargs : ParamSet) : ParamSet :=
  ParamSet.update
    (FlatObservationBlock.init defaults ob_name ins_filter_name user_comments kwargs)
    [("template_name", Value.str "WFI_img_cal_DomeFlat")]

/-- `FocusSequenceObservationBlock.__init__` (lines 187-219): base
initialiser, then overlay the focus constants and the formatted target
coordinates; the right ascension is the formatter output with the leading
sign character sliced off (`[1:]`). -/
def FocusSequenceObservationBlock.init (defaults : ParamSet)
    (ob_name ins_filter_name : String) (user_comments : Option String)
    (target_ra target_dec : ℚ) (kwargs : ParamSet) : ParamSet :=
  ParamSet.update
    (ObservationBlock.init defaults ob_name ins_filter_name user_comments kwargs)
    [("template_name", Value.str "WFI_cal_FocusSeq"),
     ("det_win1_uit1", Value.int 15),
     ("det_win1_offset", Value.int 50),
     ("seq_nexpo", Value.int 9),
     ("target_ra", Value.str (strTail (repr_sexagesimal target_ra))),
     ("target_dec", Value.str (repr_sexagesimal target_dec))]

/-- `ScienceObservationBlock.__init__` (lines 227-264): base initialiser,
then overlay the caller's exposure time, exposure count and formatted
target coordinates; the right ascension is the formatter output with the
leading sign character sliced off (`[1:]`). -/
def ScienceObservationBlock.init (defaults : ParamSet)
    (ob_name ins_filter_name : String) (target_ra target_dec : ℚ)
    (exposure_time num_exposures : ℤ) (user_comments : Option String)
    (kwargs : ParamSet) : ParamSet :=
  ParamSet.update
    (ObservationBlock.init defaults ob_name ins_filter_name user_comments kwargs)
    [("det_win1_uit1", Value.int exposure_time),
     ("seq_nexpo", Value.int num_exposures),
     ("target_ra", Value.str (strTail (repr_sexagesimal target_ra))),
     ("target_dec", Value.str (repr_sexagesimal target_dec))]

/-! ## Template documents and the write operation -/

/-- The enumeration of concrete block subtypes. -/
inductive ConcreteBlockType : Type
  | skyFlat
  | domeFlat
  | focusSequence
  | science
deriving DecidableEq

/-- The `_template_path` class attribute of each concrete subtype,
modelled by its basename.  `SkyFlatObservationBlock` and
`DomeFlatObservationBlock` both inherit `FlatObservationBlock`'s
`_template_path` (`ob_templates.py`, lines 109-110); the focus and science
subtypes each declare their own (lines 184-185 and 224-225). -/
def templatePathOf : ConcreteBlockType → String
  | ConcreteBlockType.skyFlat => "flat.template.obx"
  | ConcreteBlockType.domeFlat => "flat.template.obx"
  | ConcreteBlockType.focusSequence => "focus.template.obx"
  | ConcreteBlockType.science => "science.template.obx"

/-- A parsed template document: a sequence of literal runs and named
placeholder fields (`str.format` named fields; the spec notes substitution
is a flat named-field fill). -/
inductive Seg : Type
  | lit (s : String)
  | field (k : String)
deriving DecidableEq

/-- A template document. -/
abbrev Template := List Seg

/-- Rendering of a parameter value into the output text (`str.format`
stringifies the stored value). -/
def Value.render : Value → String
  | Value.str s => s
  | Value.int z => toString z

/-- `template.format(**self.__dict__)`: substitute every placeholder from
the parameter set; `none` when some placeholder's key is absent (Python
raises `KeyError`). -/
def formatTemplate : Template → ParamSet → Option String
  | [], _ => some ""
  | Seg.lit s :: t, ps => (formatTemplate t ps).map (fun r => s ++ r)
  | Seg.field k :: t, ps =>
    match lookupLast ps k with
    | none => none
    | some v => (formatTemplate t ps).map (fun r => Value.render v ++ r)

/-- A filesystem: a map from path to file contents. -/
abbrev FS := String → Option String

/-- The failure modes of `ObservationBlock.write`: the `assert` on a
missing `_template_path`, the `IOError` on an existing destination without
`clobber`, and the `KeyError` from `str.format` on a placeholder missing
from the parameter set. -/
inductive WriteError : Type
  | noTemplate
  | fileExists
  | missingKey
deriving DecidableEq

/-- `ObservationBlock.write` (`ob_templates.py`, lines 73-103): assert a
template path is set; fail if the destination exists and `clobber` is
false; read the template document (passed here as its parsed value), fill
it from the parameter set (failing on a missing key before any output is
opened), and write the result to the destination.  The non-fatal warning
about a non-`.obx` extension does not affect the result and is not
modelled. -/
def ObservationBlock.write (fs : FS) (template_path : Option String)
    (template : Template) (ps : ParamSet) (filename : String)
    (clobber : Bool) : Except WriteError FS :=
  match template_path with
  | none => Except.error WriteError.noTemplate
  | some _ =>
    if (fs filename).isSome && !clobber then Except.error WriteError.fileExists
    else
      match formatTemplate template ps with
      | none => Except.error WriteError.missingKey
      | some contents =>
        Except.ok (fun p => if p = filename then some contents else fs p)

/-- The filesystem after a `write` call: unchanged when the call raised. -/
def ObservationBlock.writeFS (fs : FS) (template_path : Option String)
    (template : Template) (ps : ParamSet) (filename : String)
    (clobber : Bool) : FS :=
  match ObservationBlock.write fs template_path template ps filename clobber with
  | Except.ok fs' => fs'
  | Except.error _ => fs

/-! ## The science-grid generator (`generate_obs.py`) -/

/-- Python's `int()` truncation toward zero on a rational. -/
def pyInt (x : ℚ) : ℤ := if 0 ≤ x then ⌊x⌋ else ⌈x⌉

/-- `repr_gal_deg` (`generate_obs.py`, line 54):
`"{0}{1:0>2d}".format("mp"[x > 0], abs(int(x * 10)))` — the sign code is
`'p'` exactly when the coordinate is strictly positive (`"mp"[False]` is
`'m'`), then the scaled magnitude zero-padded to two digits. -/
def repr_gal_deg (x : ℚ) : String :=
  String.mk ((if 0 < x then 'p' else 'm') ::
    padZeros 2 (natDigits (pyInt (x * 10)).natAbs))

/-- `generate_ob_name` (`generate_obs.py`, lines 55-56):
`"atg.sci.{N:0>4.0f}.{l_str}{b_str}"` with `N` zero-padded to four digits
and the two sign-coded galactic-coordinate fragments. -/
def generate_ob_name (N : ℕ) (l b : ℚ) : String :=
  "atg.sci." ++ String.mk (padZeros 4 (natDigits N)) ++ "." ++
    repr_gal_deg l ++ repr_gal_deg b

/-- The number of elements of `numpy.arange(start, stop, step)`:
`⌈(stop - start) / step⌉`.  At the concrete arguments used below the
double-precision evaluation performed by numpy yields the same count as
this exact rational computation. -/
def arangeLen (start stop step : ℚ) : ℕ := (⌈(stop - start) / step⌉).toNat

/-- `numpy.arange(start, stop, step)` over exact rationals:
`start + k * step` for `k < ⌈(stop - start) / step⌉`. -/
def arange (start stop step : ℚ) : List ℚ :=
  (List.range (arangeLen start stop step)).map (fun k : ℕ => start + (k : ℚ) * step)

/-- The `l` sweep of the science grid (`generate_obs.py`, line 59):
`np.arange(-10, 10 + 0.4, 0.4)`. -/
def lGrid : List ℚ := arange (-10) (10 + 2/5) (2/5)

/-- The `b` sweep of the science grid (`generate_obs.py`, line 60):
`np.arange(-2.5, 2.5 + 0.4, 0.4)`. -/
def bGrid : List ℚ := arange (-(5/2)) (5/2 + 2/5) (2/5)

/-- The `(l, b)` pairs visited by the nested loops, in visit order. -/
def gridPairs : List (ℚ × ℚ) :=
  lGrid.flatMap (fun l => bGrid.map (fun b => (l, b)))

/-- The OB names produced by the science-exposure sweep: the counter `N`
starts at 0 and increments once per block. -/
def scienceGridNames : List String :=
  gridPairs.enum.map (fun p => generate_ob_name p.1 p.2.1 p.2.2)

/-- Recover the zero-padded sequence index embedded in a grid OB name:
the numeric value of characters 8 to 11 (after the `"atg.sci."` prefix). -/
def obNameKey (s : String) : ℕ := digitsVal ((s.data.drop 8).take 4)

/-! ## Lemmas about decimal digit rendering -/

theorem natDigitsF_ne_nil (fuel n : ℕ) : natDigitsF fuel n ≠ [] := by
  cases fuel with
  | zero => simp [natDigitsF]
  | succ f =>
    simp only [natDigitsF]
    split <;> simp

theorem natDigits_ne_nil (n : ℕ) : natDigits n ≠ [] := natDigitsF_ne_nil n n

theorem digitChar_isDigit : ∀ n : ℕ, n < 10 → (Nat.digitChar n).isDigit = true := by
  decide

theorem natDigitsF_all_digit :
    ∀ fuel n, n ≤ fuel → ∀ c ∈ natDigitsF fuel n, c.isDigit = true := by
  intro fuel
  induction fuel with
  | zero =>
    intro n hn c hc
    interval_cases n
    simp [natDigitsF] at hc
    subst hc
    decide
  | succ f ih =>
    intro n hn c hc
    by_cases h10 : n < 10
    · simp only [natDigitsF, if_pos h10, List.mem_singleton] at hc
      subst hc
      exact digitChar_isDigit n h10
    · simp only [natDigitsF, if_neg h10, List.mem_append, List.mem_singleton] at hc
      rcases hc with hc | hc
      · exact ih (n / 10) (by omega) c hc
      · subst hc
        exact digitChar_isDigit (n % 10) (Nat.mod_lt n (by norm_num))

theorem natDigits_all_digit (n : ℕ) : ∀ c ∈ natDigits n, c.isDigit = true :=
  natDigitsF_all_digit n n (Nat.le_refl n)

theorem natDigitsF_length_le :
    ∀ fuel n k, n ≤ fuel → 1 ≤ k → n < 10 ^ k → (natDigitsF fuel n).length ≤ k := by
  intro fuel
  induction fuel with
  | zero =>
    intro n k hn hk _
    interval_cases n
    simpa [natDigitsF] using hk
  | succ f ih =>
    intro n k hn hk hlt
    by_cases h10 : n < 10
    · simpa [natDigitsF, if_pos h10] using hk
    · obtain ⟨k', rfl⟩ : ∃ k', k = k' + 1 := ⟨k - 1, by omega⟩
      have hk' : 1 ≤ k' := by
        by_contra h
        have : k' = 0 := by omega
        subst this
        simp at hlt
        omega
      have hdiv : n / 10 < 10 ^ k' := by
        have : n < 10 ^ k' * 10 := by
          calc n < 10 ^ (k' + 1) := hlt
          _ = 10 ^ k' * 10 := by rw [pow_succ]
        omega
      have hfuel : n / 10 ≤ f := by omega
      have hrec := ih (n / 10) k' hfuel hk' hdiv
      simp only [natDigitsF, if_neg h10, List.length_append, List.length_singleton]
      omega

theorem natDigits_length_le (n k : ℕ) (hk : 1 ≤ k) (h : n < 10 ^ k) :
    (natDigits n).length ≤ k :=
  natDigitsF_length_le n n k (Nat.le_refl n) hk h

theorem digitChar_val : ∀ n : ℕ, n < 10 → (Nat.digitChar n).toNat - 48 = n := by
  decide

theorem natDigitsF_val : ∀ fuel n, n ≤ fuel → digitsVal (natDigitsF fuel n) = n := by
  intro fuel
  induction fuel with
  | zero =>
    intro n hn
    interval_cases n
    decide
  | succ f ih =>
    intro n hn
    by_cases h10 : n < 10
    · simp only [natDigitsF, if_pos h10, digitsVal, List.foldl_cons, List.foldl_nil]
      rw [Nat.zero_mul, Nat.zero_add]
      exact digitChar_val n h10
    · simp only [natDigitsF, if_neg h10, digitsVal, List.foldl_append,
        List.foldl_cons, List.foldl_nil]
      have hrec := ih (n / 10) (by omega)
      simp only [digitsVal] at hrec
      rw [hrec]
      rw [digitChar_val (n % 10) (Nat.mod_lt n (by norm_num))]
      omega

theorem natDigits_val (n : ℕ) : digitsVal (natDigits n) = n :=
  natDigitsF_val n n (Nat.le_refl n)

theorem digitsVal_replicate_zero (m : ℕ) :
    List.foldl (fun a c => a * 10 + (c.toNat - 48)) 0 (List.replicate m '0') = 0 := by
  induction m with
  | zero => rfl
  | succ k ih => simpa [List.replicate_succ] using ih

theorem digitsVal_padZeros (w : ℕ) (l : List Char) :
    digitsVal (padZeros w l) = digitsVal l := by
  simp only [digitsVal, padZeros, List.foldl_append, digitsVal_replicate_zero]

theorem padZeros_length (w : ℕ) (l : List Char) (h : l.length ≤ w) :
    (padZeros w l).length = w := by
  simp only [padZeros, List.length_append, List.length_replicate]
  omega

theorem padZeros_all_digit (w : ℕ) (l : List Char)
    (h : ∀ c ∈ l, c.isDigit = true) : ∀ c ∈ padZeros w l, c.isDigit = true := by
  intro c hc
  simp only [padZeros, List.mem_append, List.mem_replicate] at hc
  rcases hc with ⟨_, rfl⟩ | hc
  · decide
  · exact h c hc

theorem padZeros_head_digit (w : ℕ) (l : List Char) (hne : l ≠ [])
    (h : ∀ c ∈ l, c.isDigit = true) :
    ∃ c t, padZeros w l = c :: t ∧ c.isDigit = true := by
  rcases hrep : w - l.length with _ | m
  · obtain ⟨c, t, rfl⟩ := List.exists_cons_of_ne_nil hne
    refine ⟨c, t, ?_, h c (by simp)⟩
    simp only [padZeros]
    rw [hrep]
    simp
  · exact ⟨'0', List.replicate m '0' ++ l,
      by simp [padZeros, hrep, List.replicate_succ], by decide⟩

/-! ## Lemmas about the coordinate formatter -/

theorem hmsH_lt (d : ℚ) (hd : |d| ≤ 360) : hmsH d < 100 := by
  have h1 : |d| / 15 ≤ 24 := by linarith
  have h2 : ⌊|d| / 15⌋ ≤ 24 := by
    calc ⌊|d| / 15⌋ ≤ ⌊(24 : ℚ)⌋ := Int.floor_le_floor h1
    _ = 24 := by norm_num
  simp only [hmsH]
  omega

theorem hmsMtotal_lt (d : ℚ) : hmsMtotal d < 60 * hmsH d + 60 := by
  have hfl : ⌊|d| * 4⌋ < 60 * ⌊|d| / 15⌋ + 60 := by
    rw [Int.floor_lt]
    have h1 : |d| / 15 < ⌊|d| / 15⌋ + 1 := Int.lt_floor_add_one _
    have h2 : 60 * (|d| / 15) < 60 * (⌊|d| / 15⌋ + 1 : ℚ) := by linarith
    have h3 : 60 * (|d| / 15) = |d| * 4 := by ring
    push_cast
    linarith
  have hnn : (0 : ℤ) ≤ ⌊|d| / 15⌋ := Int.floor_nonneg.2 (by positivity)
  simp only [hmsMtotal, hmsH]
  omega

theorem hmsM_lt (d : ℚ) : hmsM d < 60 := by
  have := hmsMtotal_lt d
  simp only [hmsM]
  omega

theorem hmsMtotal_cast (d : ℚ) : (hmsMtotal d : ℚ) = (⌊|d| * 4⌋ : ℚ) := by
  have hnn : (0 : ℤ) ≤ ⌊|d| * 4⌋ := Int.floor_nonneg.2 (by positivity)
  simp only [hmsMtotal]
  rw [show ((⌊|d| * 4⌋.toNat : ℕ) : ℚ) = ((⌊|d| * 4⌋.toNat : ℤ) : ℚ) by push_cast; ring,
    Int.toNat_of_nonneg hnn]

theorem hmsS_nonneg (d : ℚ) : 0 ≤ hmsS d := by
  have h1 : (⌊|d| * 4⌋ : ℚ) ≤ |d| * 4 := Int.floor_le _
  simp only [hmsS, hmsMtotal_cast]
  linarith

theorem hmsS_lt (d : ℚ) : hmsS d < 60 := by
  have h1 : |d| * 4 < ⌊|d| * 4⌋ + 1 := Int.lt_floor_add_one _
  simp only [hmsS, hmsMtotal_cast]
  linarith

theorem fmtNat2_spec (n : ℕ) (h : n < 100) :
    ∃ a b, fmtNat2 n = [a, b] ∧ a.isDigit = true ∧ b.isDigit = true := by
  have hlen : (natDigits n).length ≤ 2 := natDigits_length_le n 2 (by norm_num) (by norm_num; omega)
  have hne : natDigits n ≠ [] := natDigits_ne_nil n
  have hdig := natDigits_all_digit n
  have hlen1 : 1 ≤ (natDigits n).length := by
    cases hd : natDigits n with
    | nil => exact absurd hd hne
    | cons c t => simp
  interval_cases hl : (natDigits n).length
  · obtain ⟨a, ha⟩ := List.length_eq_one.mp hl
    refine ⟨'0', a, ?_, by decide, hdig a (by simp [ha])⟩
    simp [fmtNat2, padZeros, ha]
  · obtain ⟨a, b, hab⟩ := List.length_eq_two.mp hl
    refine ⟨a, b, ?_, hdig a (by simp [hab]), hdig b (by simp [hab])⟩
    simp [fmtNat2, padZeros, hab]

theorem roundFixed_le (q : ℚ) (h0 : 0 ≤ q) (h60 : q < 60) :
    (round (q * 100000)).toNat ≤ 6000000 := by
  have h1 : round (q * 100000) ≤ 6000000 := by
    rw [round_eq]
    have h2 : ⌊q * 100000 + 1 / 2⌋ < 6000001 := by
      rw [Int.floor_lt]
      push_cast
      linarith
    omega
  omega

theorem list_len5 {α : Type} (l : List α) (h : l.length = 5) :
    ∃ a b c d e, l = [a, b, c, d, e] := by
  rcases l with _ | ⟨a, _ | ⟨b, _ | ⟨c, _ | ⟨d, _ | ⟨e, _ | ⟨x, t⟩⟩⟩⟩⟩⟩ <;>
    simp_all

theorem fmtFixed5Pad8_spec (q : ℚ) (h0 : 0 ≤ q) (h60 : q < 60) :
    ∃ a b f, fmtFixed5Pad8 q = a :: b :: '.' :: f ∧ a.isDigit = true ∧
      b.isDigit = true ∧ f.length = 5 ∧ ∀ c ∈ f, c.isDigit = true := by
  have hn : (round (q * 100000)).toNat ≤ 6000000 := roundFixed_le q h0 h60
  set n := (round (q * 100000)).toNat with hdefn
  have hip : n / 100000 < 100 := by omega
  have hfr : n % 100000 < 100000 := Nat.mod_lt _ (by norm_num)
  set fr := padZeros 5 (natDigits (n % 100000)) with hfrdef
  have hfrlen : fr.length = 5 :=
    padZeros_length 5 _ (natDigits_length_le _ 5 (by norm_num) (by norm_num; omega))
  have hfrdig : ∀ c ∈ fr, c.isDigit = true :=
    padZeros_all_digit 5 _ (natDigits_all_digit _)
  have hiplen : (natDigits (n / 100000)).length ≤ 2 :=
    natDigits_length_le _ 2 (by norm_num) (by norm_num; omega)
  have hipne : natDigits (n / 100000) ≠ [] := natDigits_ne_nil _
  have hipdig := natDigits_all_digit (n / 100000)
  have hlen1 : 1 ≤ (natDigits (n / 100000)).length := by
    cases hd : natDigits (n / 100000) with
    | nil => exact absurd hd hipne
    | cons c t => simp
  interval_cases hl : (natDigits (n / 100000)).length
  · obtain ⟨a, ha⟩ := List.length_eq_one.mp hl
    refine ⟨'0', a, fr, ?_, by decide, hipdig a (by simp [ha]), hfrlen, hfrdig⟩
    simp only [fmtFixed5Pad8, ← hdefn, ← hfrdef, ha]
    simp only [padZeros]
    rw [show ([a] ++ '.' :: fr).length = 7 by simp [hfrlen]]
    simp
  · obtain ⟨a, b, hab⟩ := List.length_eq_two.mp hl
    refine ⟨a, b, fr, ?_, hipdig a (by simp [hab]), hipdig b (by simp [hab]),
      hfrlen, hfrdig⟩
    simp only [fmtFixed5Pad8, ← hdefn, ← hfrdef, hab]
    simp only [padZeros]
    rw [show ([a, b] ++ '.' :: fr).length = 8 by simp [hfrlen]]
    simp

theorem isSexPattern_parts (s0 a1 a2 b1 b2 e1 e2 : Char) (f : List Char)
    (hs0 : s0 = '+' ∨ s0 = '-') (ha1 : a1.isDigit = true) (ha2 : a2.isDigit = true)
    (hb1 : b1.isDigit = true) (hb2 : b2.isDigit = true)
    (he1 : e1.isDigit = true) (he2 : e2.isDigit = true)
    (hf : f.length = 5) (hfd : ∀ c ∈ f, c.isDigit = true) :
    isSexPattern (String.mk (s0 ::
      ([a1, a2] ++ ':' :: [b1, b2] ++ ':' :: (e1 :: e2 :: '.' :: f)))) = true := by
  obtain ⟨f1, f2, f3, f4, f5, rfl⟩ := list_len5 f hf
  have h1 := hfd f1 (by simp)
  have h2 := hfd f2 (by simp)
  have h3 := hfd f3 (by simp)
  have h4 := hfd f4 (by simp)
  have h5 := hfd f5 (by simp)
  rcases hs0 with rfl | rfl <;>
    simp [isSexPattern, ha1, ha2, hb1, hb2, he1, he2, h1, h2, h3, h4, h5]

/-! ## Lemmas about parameter-set lookup and template rendering -/

theorem lookupLast_append (a b : ParamSet) (k : String) :
    lookupLast (a ++ b) k = (lookupLast b k).or (lookupLast a k) := by
  induction a with
  | nil => simp [lookupLast]
  | cons e t ih =>
    obtain ⟨k', v⟩ := e
    simp only [List.cons_append, lookupLast, List.append_eq, ih, Option.or_assoc]

theorem formatTemplate_missing (t : Template) (ps : ParamSet) (k : String)
    (hmem : Seg.field k ∈ t) (hk : lookupLast ps k = none) :
    formatTemplate t ps = none := by
  induction t with
  | nil => simp at hmem
  | cons s rest ih =>
    cases s with
    | lit s' =>
      have hm : Seg.field k ∈ rest := by
        rcases List.mem_cons.mp hmem with heq | h
        · exact absurd heq (by simp)
        · exact h
      simp [formatTemplate, ih hm]
    | field k' =>
      rcases List.mem_cons.mp hmem with heq | hmem'
      · have : k' = k := by
          injection heq.symm
        subst this
        simp [formatTemplate, hk]
      · cases hlk : lookupLast ps k' with
        | none => simp [formatTemplate, hlk]
        | some v => simp [formatTemplate, hlk, ih hmem']

/-! ## Lemmas about the science grid -/

theorem obNameKey_generate (N : ℕ) (hN : N < 10000) (l b : ℚ) :
    obNameKey (generate_ob_name N l b) = N := by
  have hlen : (padZeros 4 (natDigits N)).length = 4 :=
    padZeros_length 4 _ (natDigits_length_le N 4 (by norm_num) (by norm_num; omega))
  have hdata : (generate_ob_name N l b).data =
      'a' :: 't' :: 'g' :: '.' :: 's' :: 'c' :: 'i' :: '.' ::
        (padZeros 4 (natDigits N) ++
          '.' :: ((repr_gal_deg l).data ++ (repr_gal_deg b).data)) := by
    simp [generate_ob_name, String.data_append]
  rw [obNameKey, hdata]
  simp only [List.drop_succ_cons, List.drop_zero]
  rw [List.take_left' hlen, digitsVal_padZeros, natDigits_val]

theorem length_flatMap_const {α β γ : Type} (L : List α) (M : List β) (g : α → β → γ) :
    (L.flatMap (fun a => M.map (g a))).length = L.length * M.length := by
  induction L with
  | nil => simp
  | cons a t ih => simp [ih, Nat.succ_mul, Nat.add_comm]

theorem lGrid_length : lGrid.length = 51 := by
  rw [lGrid, arange, List.length_map, List.length_range, arangeLen]
  rw [show (10 + 2/5 - (-10) : ℚ) / (2/5) = 51 by norm_num]
  rw [show ⌈(51 : ℚ)⌉ = 51 by norm_num]
  rfl

theorem bGrid_length : bGrid.length = 14 := by
  rw [bGrid, arange, List.length_map, List.length_range, arangeLen]
  rw [show (5/2 + 2/5 - (-(5/2)) : ℚ) / (2/5) = 27/2 by norm_num]
  rw [show ⌈(27/2 : ℚ)⌉ = 14 by rw [Int.ceil_eq_iff] <;> constructor <;> norm_num]
  rfl

theorem gridPairs_length : gridPairs.length = 714 := by
  rw [gridPairs, length_flatMap_const, lGrid_length, bGrid_length]

theorem scienceGridNames_length : scienceGridNames.length = 714 := by
  rw [scienceGridNames, List.length_map, List.enum_length, gridPairs_length]

theorem scienceGridNames_nodup : scienceGridNames.Nodup := by
  have hnodup : gridPairs.enum.Nodup := by
    have h := List.nodup_range (n := gridPairs.length)
    rw [← List.enum_map_fst gridPairs] at h
    exact h.of_map
  refine List.Nodup.map_on ?_ hnodup
  intro x hx y hy hxy
  obtain ⟨i, p⟩ := x
  obtain ⟨j, q⟩ := y
  have hxi : gridPairs[i]? = some p := List.mem_enum_iff_getElem?.mp hx
  have hyj : gridPairs[j]? = some q := List.mem_enum_iff_getElem?.mp hy
  have hi : i < gridPairs.length := by
    have := List.getElem?_eq_some.mp hxi
    exact this.1
  have hj : j < gridPairs.length := by
    have := List.getElem?_eq_some.mp hyj
    exact this.1
  have hi4 : i < 10000 := by rw [gridPairs_length] at hi; omega
  have hj4 : j < 10000 := by rw [gridPairs_length] at hj; omega
  have hkey : i = j := by
    have h1 := obNameKey_generate i hi4 p.1 p.2
    have h2 := obNameKey_generate j hj4 q.1 q.2
    have h3 := congrArg obNameKey hxy
    simp only at h3
    rw [h1, h2] at h3
    exact h3
  subst hkey
  have : some p = some q := by rw [← hxi, ← hyj]
  injection this with hpq
  rw [hpq]

/-! ## Evaluation of the formatter at zero -/

theorem repr_sexagesimal_zero : repr_sexagesimal 0 = "-00:00:00.00000" := by
  have hH : hmsH 0 = 0 := by simp [hmsH]
  have hMt : hmsMtotal 0 = 0 := by simp [hmsMtotal]
  have hM : hmsM 0 = 0 := by simp [hmsM, hMt, hH]
  have hS : hmsS 0 = 0 := by simp [hmsS, hMt]
  have hF : fmtFixed5Pad8 0 = padZeros 8 (natDigits 0 ++ '.' :: padZeros 5 (natDigits 0)) := by
    simp [fmtFixed5Pad8]
  rw [repr_sexagesimal, hH, hM, hS, hF, if_neg (by norm_num : ¬ (0 : ℚ) < 0)]
  decide

/-- The first character of a sign-stripped formatter output is the first
character of the zero-padded hours field, hence a decimal digit. -/
theorem strTail_repr_head (d : ℚ) :
    ∃ c rest, (strTail (repr_sexagesimal d)).data = c :: rest ∧ c.isDigit = true := by
  obtain ⟨c, t, hpad, hdig⟩ :=
    padZeros_head_digit 2 (natDigits (hmsH d)) (natDigits_ne_nil _) (natDigits_all_digit _)
  refine ⟨c, t ++ ':' :: fmtNat2 (hmsM d) ++ ':' :: fmtFixed5Pad8 (hmsS d), ?_, hdig⟩
  simp [strTail, repr_sexagesimal, fmtNat2, hpad]

/-! ## Claim theorems -/

/-- C1, counterexample: the claim states that a zero-valued input angle
formats with a leading `+` sign; in the code the sign test is
`c.degree > 0`, which is false at zero, so the formatter emits `-`. -/
theorem c1_zero_sign_counterexample :
    ¬ (repr_sexagesimal 0).data.headD ' ' = '+' := by
  rw [repr_sexagesimal_zero]
  decide

/-- C1, amended: a zero-valued input angle formats with a leading `-`
sign (the sign test `c.degree > 0` treats zero as non-positive); the full
output at zero is `-00:00:00.00000`. -/
theorem c1_zero_sign_amended :
    (repr_sexagesimal 0).data.headD ' ' = '-' ∧
      repr_sexagesimal 0 = "-00:00:00.00000" := by
  rw [repr_sexagesimal_zero]
  exact ⟨by decide, rfl⟩

/-- C5: for every valid angle input (any angle within one full turn,
covering right ascensions in `[0, 360)` and declinations in `[-90, 90]`),
the coordinate formatter produces a string matching
`[+-]\d\d:\d\d:\d\d\.\d\d\d\d\d` — a sign, two zero-padded two-digit
fields, and a two-digit seconds field with exactly 5 decimal places. -/
theorem c5_sexagesimal_pattern (d : ℚ) (hd : |d| ≤ 360) :
    isSexPattern (repr_sexagesimal d) = true := by
  obtain ⟨a1, a2, hA, ha1, ha2⟩ := fmtNat2_spec (hmsH d) (hmsH_lt d hd)
  obtain ⟨b1, b2, hB, hb1, hb2⟩ :=
    fmtNat2_spec (hmsM d) (lt_trans (hmsM_lt d) (by norm_num))
  obtain ⟨e1, e2, f, hC, he1, he2, hf, hfd⟩ :=
    fmtFixed5Pad8_spec (hmsS d) (hmsS_nonneg d) (hmsS_lt d)
  have hsgn : (if 0 < d then '+' else '-') = '+' ∨ (if 0 < d then '+' else '-') = '-' := by
    split
    · exact Or.inl rfl
    · exact Or.inr rfl
  rw [repr_sexagesimal, hA, hB, hC]
  exact isSexPattern_parts _ a1 a2 b1 b2 e1 e2 f hsgn ha1 ha2 hb1 hb2 he1 he2 hf hfd

/-- C5, witness: the pattern theorem applied at the concrete angle
266 degrees. -/
theorem c5_sexagesimal_pattern_witness :
    |(266 : ℚ)| ≤ 360 ∧ isSexPattern (repr_sexagesimal 266) = true :=
  ⟨by norm_num, c5_sexagesimal_pattern 266 (by norm_num)⟩

/-- C6: in both the Science and the Focus Sequence constructors the
stored `target_ra` is the formatter output with its leading sign character
stripped (`repr_sexagesimal(target_ra)[1:]`), and a sign-stripped
formatter output always begins with a decimal digit — never `+` or `-`. -/
theorem c6_target_ra_sign_stripped :
    (∀ (defaults : ParamSet) (obn fn : String) (ra dec : ℚ) (te ne : ℤ)
        (uc : Option String) (kw : ParamSet),
      lookupLast (ScienceObservationBlock.init defaults obn fn ra dec te ne uc kw)
        "target_ra" = some (Value.str (strTail (repr_sexagesimal ra)))) ∧
    (∀ (defaults : ParamSet) (obn fn : String) (uc : Option String)
        (ra dec : ℚ) (kw : ParamSet),
      lookupLast (FocusSequenceObservationBlock.init defaults obn fn uc ra dec kw)
        "target_ra" = some (Value.str (strTail (repr_sexagesimal ra)))) ∧
    (∀ d : ℚ, ∃ c rest, (strTail (repr_sexagesimal d)).data = c :: rest ∧
      c.isDigit = true ∧ c ≠ '+' ∧ c ≠ '-') := by
  refine ⟨?_, ?_, ?_⟩
  · intro defaults obn fn ra dec te ne uc kw
    rw [ScienceObservationBlock.init, ParamSet.update, lookupLast_append]
    simp [lookupLast]
  · intro defaults obn fn uc ra dec kw
    rw [FocusSequenceObservationBlock.init, ParamSet.update, lookupLast_append]
    simp [lookupLast]
  · intro d
    obtain ⟨c, rest, hdata, hdig⟩ := strTail_repr_head d
    refine ⟨c, rest, hdata, hdig, ?_, ?_⟩
    · intro h
      subst h
      simp at hdig
    · intro h
      subst h
      simp at hdig

/-- C2: parameter sets are built by ordered overlay with dict-update
semantics, so whenever the same key is assigned more than once — across
the defaults, type-constant and caller layers at construction, or by the
update operation — the last-applied value is the one that remains: (1) a
lookup after an update sees the update's last value for the key, falling
back to the older set only when the update does not bind the key; (2) the
caller's exposure time overrides any same-keyed defaults entry in a
Science block; (3) the sky-flat template-name constant, applied last,
wins; (4) the caller's block name overrides any same-keyed defaults
entry. -/
theorem c2_overlay_last_wins :
    (∀ (ps kvs : ParamSet) (k : String),
      lookupLast (ParamSet.update ps kvs) k = (lookupLast kvs k).or (lookupLast ps k)) ∧
    (∀ (defaults : ParamSet) (obn fn : String) (ra dec : ℚ) (te ne : ℤ)
        (uc : Option String) (kw : ParamSet),
      lookupLast (ScienceObservationBlock.init defaults obn fn ra dec te ne uc kw)
        "det_win1_uit1" = some (Value.int te)) ∧
    (∀ (defaults : ParamSet) (obn fn : String) (uc : Option String) (kw : ParamSet),
      lookupLast (SkyFlatObservationBlock.init defaults obn fn uc kw)
        "template_name" = some (Value.str "WFI_img_cal_SkyFlat")) ∧
    (∀ (defaults : ParamSet) (obn fn : String) (uc : Option String) (kw : ParamSet),
      lookupLast (ObservationBlock.init defaults obn fn uc kw)
        "ob_name" = some (Value.str obn)) := by
  refine ⟨fun ps kvs k => lookupLast_append ps kvs k, ?_, ?_, ?_⟩
  · intro defaults obn fn ra dec te ne uc kw
    rw [ScienceObservationBlock.init, ParamSet.update, lookupLast_append]
    simp [lookupLast]
  · intro defaults obn fn uc kw
    rw [SkyFlatObservationBlock.init, ParamSet.update, lookupLast_append]
    simp [lookupLast]
  · intro defaults obn fn uc kw
    rw [ObservationBlock.init, ParamSet.update, lookupLast_append]
    simp [lookupLast]

/-- C3: writing to an existing destination with the overwrite flag false
fails with the destination-conflict error and leaves the whole filesystem
(in particular the existing file's contents) unchanged; writing with the
overwrite flag true replaces the destination's contents with the new
rendering of the template. -/
theorem c3_write_clobber :
    ∀ (fs : FS) (tp : String) (template : Template) (ps : ParamSet) (filename : String),
    ((fs filename).isSome = true →
      ObservationBlock.write fs (some tp) template ps filename false
        = Except.error WriteError.fileExists ∧
      ObservationBlock.writeFS fs (some tp) template ps filename false = fs) ∧
    (∀ contents, formatTemplate template ps = some contents →
      ObservationBlock.writeFS fs (some tp) template ps filename true filename
        = some contents) := by
  intro fs tp template ps filename
  constructor
  · intro hex
    have hw : ObservationBlock.write fs (some tp) template ps filename false
        = Except.error WriteError.fileExists := by
      simp [ObservationBlock.write, hex]
    exact ⟨hw, by simp [ObservationBlock.writeFS, hw]⟩
  · intro contents hfmt
    simp [ObservationBlock.writeFS, ObservationBlock.write, hfmt]

/-- C3, witness: a concrete filesystem holding `"old"` at `out.obx`; the
non-overwrite call fails and preserves it, and the overwrite call installs
the fresh rendering `"new"`. -/
theorem c3_write_clobber_witness :
    (ObservationBlock.write (fun p => if p = "out.obx" then some "old" else none)
        (some "science.template.obx") [Seg.lit "new"] [] "out.obx" false
      = Except.error WriteError.fileExists ∧
     ObservationBlock.writeFS (fun p => if p = "out.obx" then some "old" else none)
        (some "science.template.obx") [Seg.lit "new"] [] "out.obx" false
      = (fun p => if p = "out.obx" then some "old" else none)) ∧
    ObservationBlock.writeFS (fun p => if p = "out.obx" then some "old" else none)
        (some "science.template.obx") [Seg.lit "new"] [] "out.obx" true "out.obx"
      = some "new" := by
  have h := c3_write_clobber (fun p => if p = "out.obx" then some "old" else none)
    "science.template.obx" [Seg.lit "new"] [] "out.obx"
  exact ⟨h.1 (by decide), h.2 "new" (by simp [formatTemplate])⟩

/-- C4: if the template document contains a placeholder whose name is not
a key of the block's parameter set at write time, the write operation
fails (with some error) and produces no output: the filesystem is
unchanged. -/
theorem c4_write_missing_key :
    ∀ (fs : FS) (tp : Option String) (template : Template) (ps : ParamSet)
      (filename : String) (clobber : Bool) (k : String),
    Seg.field k ∈ template → lookupLast ps k = none →
    (∃ e, ObservationBlock.write fs tp template ps filename clobber = Except.error e) ∧
    ObservationBlock.writeFS fs tp template ps filename clobber = fs := by
  intro fs tp template ps filename clobber k hmem hk
  have hfmt := formatTemplate_missing template ps k hmem hk
  cases tp with
  | none =>
    exact ⟨⟨WriteError.noTemplate, rfl⟩,
      by simp [ObservationBlock.writeFS, ObservationBlock.write]⟩
  | some tpv =>
    by_cases hex : ((fs filename).isSome && !clobber) = true
    · refine ⟨⟨WriteError.fileExists, ?_⟩, ?_⟩ <;>
        simp [ObservationBlock.write, ObservationBlock.writeFS, hex, hfmt]
    · refine ⟨⟨WriteError.missingKey, ?_⟩, ?_⟩ <;>
        simp [ObservationBlock.write, ObservationBlock.writeFS, hex, hfmt]

/-- C4, witness: a template consisting of the single placeholder
`missing` filled from an empty parameter set fails and writes nothing. -/
theorem c4_write_missing_key_witness :
    Seg.field "missing" ∈ ([Seg.field "missing"] : Template) ∧
    (∃ e, ObservationBlock.write (fun _ => none) (some "t.obx")
        [Seg.field "missing"] [] "out.obx" true = Except.error e) ∧
    ObservationBlock.writeFS (fun _ => none) (some "t.obx")
        [Seg.field "missing"] [] "out.obx" true = (fun _ => none) := by
  have h := c4_write_missing_key (fun _ => none) (some "t.obx")
    [Seg.field "missing"] [] "out.obx" true "missing" (by simp) rfl
  exact ⟨by simp, h.1, h.2⟩

/-- C7: two blocks of the same concrete subtype constructed independently
from identical constructor inputs (same defaults document, same template
document) render byte-identical output, both as the formatted contents and
as the file written to a fresh filesystem. -/
theorem c7_deterministic_render :
    ∀ (defaults : ParamSet) (template : Template) (fname : String),
    (∀ (ps1 ps2 : ParamSet) (obn fn : String) (ra dec : ℚ) (te ne : ℤ)
        (uc : Option String) (kw : ParamSet),
      ps1 = ScienceObservationBlock.init defaults obn fn ra dec te ne uc kw →
      ps2 = ScienceObservationBlock.init defaults obn fn ra dec te ne uc kw →
      formatTemplate template ps1 = formatTemplate template ps2 ∧
      ObservationBlock.writeFS (fun _ => none)
          (some (templatePathOf ConcreteBlockType.science)) template ps1 fname true fname
        = ObservationBlock.writeFS (fun _ => none)
          (some (templatePathOf ConcreteBlockType.science)) template ps2 fname true fname) ∧
    (∀ (ps1 ps2 : ParamSet) (obn fn : String) (uc : Option String) (kw : ParamSet),
      ps1 = SkyFlatObservationBlock.init defaults obn fn uc kw →
      ps2 = SkyFlatObservationBlock.init defaults obn fn uc kw →
      formatTemplate template ps1 = formatTemplate template ps2) ∧
    (∀ (ps1 ps2 : ParamSet) (obn fn : String) (uc : Option String) (kw : ParamSet),
      ps1 = DomeFlatObservationBlock.init defaults obn fn uc kw →
      ps2 = DomeFlatObservationBlock.init defaults obn fn uc kw →
      formatTemplate template ps1 = formatTemplate template ps2) ∧
    (∀ (ps1 ps2 : ParamSet) (obn fn : String) (uc : Option String) (ra dec : ℚ)
        (kw : ParamSet),
      ps1 = FocusSequenceObservationBlock.init defaults obn fn uc ra dec kw →
      ps2 = FocusSequenceObservationBlock.init defaults obn fn uc ra dec kw →
      formatTemplate template ps1 = formatTemplate template ps2) := by
  intro defaults template fname
  refine ⟨?_, ?_, ?_, ?_⟩
  · intro ps1 ps2 obn fn ra dec te ne uc kw h1 h2
    subst h1
    subst h2
    exact ⟨rfl, rfl⟩
  · intro ps1 ps2 obn fn uc kw h1 h2
    subst h1
    subst h2
    rfl
  · intro ps1 ps2 obn fn uc kw h1 h2
    subst h1
    subst h2
    rfl
  · intro ps1 ps2 obn fn uc ra dec kw h1 h2
    subst h1
    subst h2
    rfl

/-- C7, witness: the determinism theorem applied to two science blocks
built from the same concrete inputs. -/
theorem c7_deterministic_render_witness :
    formatTemplate [] (ScienceObservationBlock.init [] "n" "f" 0 0 100 5 none [])
      = formatTemplate [] (ScienceObservationBlock.init [] "n" "f" 0 0 100 5 none []) ∧
    ObservationBlock.writeFS (fun _ => none)
        (some (templatePathOf ConcreteBlockType.science)) []
        (ScienceObservationBlock.init [] "n" "f" 0 0 100 5 none []) "o.obx" true "o.obx"
      = ObservationBlock.writeFS (fun _ => none)
        (some (templatePathOf ConcreteBlockType.science)) []
        (ScienceObservationBlock.init [] "n" "f" 0 0 100 5 none []) "o.obx" true "o.obx" :=
  (c7_deterministic_render [] [] "o.obx").1 _ _ "n" "f" 0 0 100 5 none [] rfl rfl

/-- C8, counterexample: the claim that distinct concrete block subtypes
render from distinct template documents is false — `SkyFlatObservationBlock`
and `DomeFlatObservationBlock` are distinct subtypes but both inherit
`FlatObservationBlock`'s `flat.template.obx`. -/
theorem c8_template_sharing_counterexample :
    ¬ (∀ t1 t2 : ConcreteBlockType, t1 ≠ t2 → templatePathOf t1 ≠ templatePathOf t2) := by
  intro h
  exact h ConcreteBlockType.skyFlat ConcreteBlockType.domeFlat (by decide) rfl

/-- C8, amended: the Sky Flat and Dome Flat subtypes share the single
flat template document and are distinguished only by the `template_name`
parameter they overlay; the Focus Sequence and Science subtypes each
render from their own distinct template document. -/
theorem c8_template_sharing_amended :
    templatePathOf ConcreteBlockType.skyFlat = templatePathOf ConcreteBlockType.domeFlat ∧
    templatePathOf ConcreteBlockType.focusSequence ≠ templatePathOf ConcreteBlockType.science ∧
    templatePathOf ConcreteBlockType.skyFlat ≠ templatePathOf ConcreteBlockType.focusSequence ∧
    templatePathOf ConcreteBlockType.skyFlat ≠ templatePathOf ConcreteBlockType.science ∧
    (∀ (defaults : ParamSet) (obn fn : String) (uc : Option String) (kw : ParamSet),
      lookupLast (SkyFlatObservationBlock.init defaults obn fn uc kw) "template_name"
        ≠ lookupLast (DomeFlatObservationBlock.init defaults obn fn uc kw) "template_name") := by
  refine ⟨rfl, by decide, by decide, by decide, ?_⟩
  intro defaults obn fn uc kw
  rw [SkyFlatObservationBlock.init, DomeFlatObservationBlock.init,
    ParamSet.update, ParamSet.update, lookupLast_append, lookupLast_append]
  simp [lookupLast]

/-- C10: the `**kwargs` binder of every concrete constructor is accepted
but never merged into the parameter set: constructing with any extra
key/value list yields exactly the same parameter set as constructing with
none, and hence the same rendered output for any template. -/
theorem c10_kwargs_ignored :
    ∀ (defaults : ParamSet) (obn fn : String) (uc : Option String) (ra dec : ℚ)
      (te ne : ℤ) (kw : ParamSet) (template : Template),
    ScienceObservationBlock.init defaults obn fn ra dec te ne uc kw
      = ScienceObservationBlock.init defaults obn fn ra dec te ne uc [] ∧
    SkyFlatObservationBlock.init defaults obn fn uc kw
      = SkyFlatObservationBlock.init defaults obn fn uc [] ∧
    DomeFlatObservationBlock.init defaults obn fn uc kw
      = DomeFlatObservationBlock.init defaults obn fn uc [] ∧
    FocusSequenceObservationBlock.init defaults obn fn uc ra dec kw
      = FocusSequenceObservationBlock.init defaults obn fn uc ra dec [] ∧
    formatTemplate template (ScienceObservationBlock.init defaults obn fn ra dec te ne uc kw)
      = formatTemplate template (ScienceObservationBlock.init defaults obn fn ra dec te ne uc []) := by
  intro defaults obn fn uc ra dec te ne kw template
  exact ⟨rfl, rfl, rfl, rfl, rfl⟩

/-- C2, witness: the overlay lemma applied at a concrete pair of
single-entry layers sharing the key `k`. -/
theorem c2_overlay_last_wins_witness :
    lookupLast (ParamSet.update [("k", Value.int 1)] [("k", Value.int 2)]) "k"
      = (lookupLast [("k", Value.int 2)] "k").or (lookupLast [("k", Value.int 1)] "k") :=
  c2_overlay_last_wins.1 [("k", Value.int 1)] [("k", Value.int 2)] "k"

/-- C6, witness: the sign-stripping theorem applied at a concrete science
block. -/
theorem c6_target_ra_sign_stripped_witness :
    lookupLast (ScienceObservationBlock.init [] "n" "f" 266 (-28) 100 5 none [])
      "target_ra" = some (Value.str (strTail (repr_sexagesimal 266))) :=
  c6_target_ra_sign_stripped.1 [] "n" "f" 266 (-28) 100 5 none []

/-- C8, witness: the amended sharing theorem applied at concrete
constructor inputs — the two flat subtypes store different
`template_name` parameters. -/
theorem c8_template_sharing_amended_witness :
    lookupLast (SkyFlatObservationBlock.init [] "n" "f" none []) "template_name"
      ≠ lookupLast (DomeFlatObservationBlock.init [] "n" "f" none []) "template_name" :=
  c8_template_sharing_amended.2.2.2.2 [] "n" "f" none []

/-- C10, witness: an extra `kwargs` entry at a concrete science
construction leaves the parameter set unchanged. -/
theorem c10_kwargs_ignored_witness :
    ScienceObservationBlock.init [] "n" "f" 0 0 100 5 none [("extra", Value.int 7)]
      = ScienceObservationBlock.init [] "n" "f" 0 0 100 5 none [] :=
  (c10_kwargs_ignored [] "n" "f" none 0 0 100 5 [("extra", Value.int 7)] []).1

/-- C9, counterexample: the claimed block count
`((10-(-10))/0.4 + 1) * ((2.5-(-2.5))/0.4 + 1)` equals `51 * 13.5 = 688.5`
and is not even an integer; the sweep actually produces `51 * 14 = 714`
blocks, because the `b` stop value is `2.5 + 0.4` and `(2.5-(-2.5))/0.4 =
12.5` is not integral, so `arange` overshoots to `b = 2.7` with 14 values. -/
theorem c9_grid_count_counterexample :
    ¬ ((scienceGridNames.length : ℚ)
        = ((10 - (-10)) / (4/10) + 1) * ((5/2 - (-(5/2))) / (4/10) + 1)) := by
  rw [scienceGridNames_length]
  norm_num

/-- C9, amended: the sweep produces exactly `51 * 14 = 714` blocks (the
`l` grid has `(10-(-10))/0.4 + 1 = 51` values; the `b` grid has 14 values,
from `-2.5` to `2.7` in steps of `0.4`, because the stop `2.5 + 0.4` is
not hit exactly), the names are pairwise distinct, and each name is
`generate_ob_name` of its zero-padded sequence index and the sign-coded,
scaled galactic-coordinate fragments of its grid point, from which the
sequence index is recoverable. -/
theorem c9_grid_count_amended :
    scienceGridNames.length = 714 ∧ scienceGridNames.Nodup ∧
    scienceGridNames
      = gridPairs.enum.map (fun p => generate_ob_name p.1 p.2.1 p.2.2) :=
  ⟨scienceGridNames_length, scienceGridNames_nodup, rfl⟩

end WfiOb
